import Mathlib

/-!
Verification development for the `ai-data-cleaning` component of the
AI-Programming-Education-Suite-2024 repository.

The development shallowly embeds the two source modules the claims are about:

* `data_extractor.py` — the `FatigueSetDataExtractor` class: the static sensor
  catalog (`sensor_definitions`), schema creation (`create_database_schema`),
  metadata loading (`load_metadata`), per-file parsing and column
  reconciliation (`process_data_file`), and the overall driver
  (`extract_all_data`).
* `database.py` — the `FatigueSetDatabase` class: `connect`/`close` and the
  query methods (`get_participants`, `get_available_sensors`,
  `get_sensor_stats`, `get_sensor_data_summary`, `get_sensor_data`,
  `get_participant_overview`, `search_data`, `get_database_stats`).

Modelling conventions:
* Numeric cell values are modelled as `Int` (the float/int distinction plays
  no role in any claim).
* The SQLite store is a `Store`: the `participants` table and the
  `data_dictionary` table are separate fields (the code addresses them by
  their fixed names and excludes them from sensor-table enumeration); sensor
  tables live in `Store.tables`, in creation order, as `sqlite_master` lists
  them.  Each sensor table keeps its rows in insertion order.
* A pandas DataFrame read from a sensor file is a `ParsedFrame`: a column
  name list plus rows of cells.  A raw file is a `FileInfo` carrying, for
  each candidate delimiter, either the frame that `pd.read_csv` would
  produce with that delimiter or `none` when that parse raises.
* Python exceptions are modelled with `Except String`; the `{'error': ...}`
  dictionaries returned by `search_data` are a separate constructor
  (`SearchOutcome.errorResult`), since the code distinguishes raising from
  returning an error payload.
* The sqlite connection cached in `self.conn` is modelled as
  `Option ConnState`: `none` is Python `None`; `some conn_open` /
  `some conn_closed` is a live / closed connection object.  `conn.close()`
  flips the state to `conn_closed` without resetting the attribute, exactly
  as `database.py` does.
* In `database.py`, `get_sensor_data` is defined twice in the class body
  (lines 96 and 160); the second definition shadows the first, so only the
  second is embedded.
-/

/-- Decidable equality for `Except`, so that concrete runs of the fallible
operations can be checked by evaluation. -/
instance {ε α : Type} [DecidableEq ε] [DecidableEq α] : DecidableEq (Except ε α) := fun a b =>
  match a, b with
  | .error e, .error f =>
    if h : e = f then .isTrue (congrArg Except.error h)
    else .isFalse (fun hc => h (Except.error.inj hc))
  | .error _, .ok _ => .isFalse (fun hc => Except.noConfusion hc)
  | .ok _, .error _ => .isFalse (fun hc => Except.noConfusion hc)
  | .ok x, .ok y =>
    if h : x = y then .isTrue (congrArg Except.ok h)
    else .isFalse (fun hc => h (Except.ok.inj hc))

/-- One row of a sensor table: the `timestamp` column (used by `ORDER BY
timestamp`), the tag columns added by the extractor, and the raw cells of the
row as parsed from the file. -/
structure SensorRow where
  timestamp : Int
  participant_id : String
  session_id : Int
  values : List Int
deriving DecidableEq

/-- A sensor table of the SQLite store: its name, its declared columns (from
`CREATE TABLE`), and its rows in insertion order. -/
structure Table where
  name : String
  columns : List String
  rows : List SensorRow
deriving DecidableEq

/-- One row of the `participants` table. -/
structure ParticipantRow where
  participant_id : String
  low_session : Option Int
  medium_session : Option Int
  high_session : Option Int
deriving DecidableEq

/-- One row of the `data_dictionary` table (the fields no claim mentions —
units, sampling rate, sensor type — are omitted). -/
structure DictEntry where
  sensor_name : String
  description : String
deriving DecidableEq

/-- The persisted SQLite store. -/
structure Store where
  participants : List ParticipantRow
  data_dictionary : List DictEntry
  tables : List Table
deriving DecidableEq

def emptyStore : Store := ⟨[], [], []⟩

/-- One entry of the static sensor catalog `self.sensor_definitions`
(`data_extractor.py`, lines 37-287).  Only the fields the claims touch are
kept: the identifier, the ordered canonical column list, and the description
mirrored into `data_dictionary`. -/
structure SensorDef where
  name : String
  columns : List String
  description : String
deriving DecidableEq

/-- The static sensor catalog, verbatim from `data_extractor.py`. -/
def sensor_definitions : List SensorDef := [
  ⟨"ear_acc_left", ["timestamp", "ax", "ay", "az"], "左耳加速度计数据"⟩,
  ⟨"ear_acc_right", ["timestamp", "ax", "ay", "az"], "右耳加速度计数据"⟩,
  ⟨"ear_gyro_left", ["timestamp", "gx", "gy", "gz"], "左耳陀螺仪数据"⟩,
  ⟨"ear_gyro_right", ["timestamp", "gx", "gy", "gz"], "右耳陀螺仪数据"⟩,
  ⟨"ear_ppg_left", ["timestamp", "green", "ir", "red"], "左耳光电容积脉搏波(PPG)数据"⟩,
  ⟨"ear_ppg_right", ["timestamp", "green", "ir", "red"], "右耳光电容积脉搏波(PPG)数据"⟩,
  ⟨"forehead_acc", ["timestamp", "ax", "ay", "az"], "前额加速度计数据"⟩,
  ⟨"forehead_eeg_alpha_abs", ["timestamp", "TP9", "AF7", "AF8", "TP10"], "前额EEG α波段绝对功率"⟩,
  ⟨"forehead_eeg_beta_abs", ["timestamp", "TP9", "AF7", "AF8", "TP10"], "前额EEG β波段绝对功率"⟩,
  ⟨"forehead_eeg_delta_abs", ["timestamp", "TP9", "AF7", "AF8", "TP10"], "前额EEG δ波段绝对功率"⟩,
  ⟨"forehead_eeg_gamma_abs", ["timestamp", "TP9", "AF7", "AF8", "TP10"], "前额EEG γ波段绝对功率"⟩,
  ⟨"forehead_eeg_theta_abs", ["timestamp", "TP9", "AF7", "AF8", "TP10"], "前额EEG θ波段绝对功率"⟩,
  ⟨"forehead_eeg_raw", ["timestamp", "TP9", "AF7", "AF8", "TP10"], "前额原始EEG波形"⟩,
  ⟨"forehead_gyro", ["timestamp", "gx", "gy", "gz"], "前额陀螺仪数据"⟩,
  ⟨"muse_blinks", ["timestamp", "is_blink"], "眨眼事件检测"⟩,
  ⟨"muse_jaw_clenches", ["timestamp", "is_clench"], "咬牙事件检测"⟩,
  ⟨"muse_device_battery", ["timestamp", "battery_level_muse", "battery_voltage_muse", "adc_voltage_muse", "temperature_muse"], "Muse设备电池和温度状态"⟩,
  ⟨"muse_device_fit", ["timestamp", "TP9", "AF7", "AF8", "TP10"], "Muse设备各传感器接触质量"⟩,
  ⟨"muse_device_touch", ["timestamp", "is_touching"], "前额接触检测"⟩,
  ⟨"chest_raw_acc", ["timestamp", "vertical", "lateral", "sagittal"], "胸部原始加速度计数据"⟩,
  ⟨"chest_bb_interval", ["timestamp", "duration"], "呼吸事件时间间隔"⟩,
  ⟨"chest_physiology_summary", ["timestamp", "hr", "br", "posture", "hr_confidence", "hrv", "is_hr_unreliable", "is_br_unreliable", "is_hrv_unreliable"], "胸部生理参数汇总"⟩,
  ⟨"chest_raw_breathing", ["timestamp", "breathing_waveform"], "胸部原始呼吸波形"⟩,
  ⟨"chest_raw_ecg", ["timestamp", "ecg_waveform"], "胸部原始心电图"⟩,
  ⟨"chest_rr_interval", ["timestamp", "duration"], "R波间期"⟩,
  ⟨"chest_sensor_summary", ["timestamp", "acc_magnitude", "acc_peak", "acc_peak_vertical_angle", "acc_peak_horizontal_angle", "ecg_amp_uncalibrated", "ecg_noise_uncalibrated"], "胸部传感器汇总数据"⟩,
  ⟨"zephyr_activity_summary", ["timestamp", "cumulative_impulse_load", "walking_step_count", "running_step_count", "bound_count", "jump_count", "minor_impact_count", "major_impact_count", "avg_force_dev_rate", "avg_step_impulse", "avg_step_period", "last_jump_flight_time"], "Zephyr活动汇总统计"⟩,
  ⟨"zephyr_device_status", ["timestamp", "battery_voltage", "battery_level", "device_temperature", "bluetooth_link_quality", "bluetooth_rssi", "bluetooth_tx_power", "worn_confidence", "is_button_press", "is_not_fitted_to_garment"], "Zephyr设备状态"⟩,
  ⟨"wrist_acc", ["timestamp", "ax", "ay", "az"], "手腕加速度计数据"⟩,
  ⟨"wrist_bvp", ["timestamp", "bvp"], "手腕血容量脉搏"⟩,
  ⟨"wrist_eda", ["timestamp", "eda"], "手腕皮肤电活动"⟩,
  ⟨"wrist_hr", ["timestamp", "hr"], "手腕心率（过去10秒平均值）"⟩,
  ⟨"wrist_ibi", ["timestamp", "duration"], "心跳间期"⟩,
  ⟨"wrist_skin_temperature", ["timestamp", "temp"], "手腕皮肤温度"⟩
]

/-- The known sensor identifiers. -/
def sensorNames : List String := sensor_definitions.map (·.name)

/-! ## Extractor (`data_extractor.py`) -/

/-- A pandas DataFrame as parsed from one sensor file: header names and data
rows (cells as `Int`). -/
structure ParsedFrame where
  columns : List String
  rows : List (List Int)
deriving DecidableEq

/-- One discovered sensor file, as produced by `scan_data_files`
(`data_extractor.py`, lines 381-412): the participant and session directory
names (strings of digits), the sensor identifier (the file stem) and the file
extension.  The fields `parseComma` / `parseTab` / `parseSpace` record what
`pd.read_csv` yields on this file with the corresponding separator —
`none` when that parse raises an exception. -/
structure FileInfo where
  participant_id : String
  session_id : String
  sensor_name : String
  suffix : String
  parseComma : Option ParsedFrame
  parseTab : Option ParsedFrame
  parseSpace : Option ParsedFrame
deriving DecidableEq

/-- The file-reading step of `process_data_file` (lines 424-432): a `.csv`
file is read with the default comma separator only; any other file (the scan
admits only `.csv` and `.txt`) is read with a tab separator, falling back to
a space separator when the tab read raises. -/
def readFrame (fi : FileInfo) : Except String ParsedFrame :=
  if fi.suffix == ".csv" then
    match fi.parseComma with
    | some f => .ok f
    | none => .error "read_csv failed"
  else
    match fi.parseTab with
    | some f => .ok f
    | none =>
      match fi.parseSpace with
      | some f => .ok f
      | none => .error "read_csv failed"

/-- `df[col] = 0` on a DataFrame: overwrite the column when the name already
exists, otherwise append a new column of zeros on the right. -/
def assignColumn (f : ParsedFrame) (c : String) (v : Int) : ParsedFrame :=
  if c ∈ f.columns then
    { f with rows := f.rows.map (fun r => r.set (f.columns.indexOf c) v) }
  else
    { columns := f.columns ++ [c], rows := f.rows.map (fun r => r ++ [v]) }

/-- `df.columns = names`: pandas accepts the assignment only when the new
name list has exactly as many entries as the frame has columns, and raises a
`ValueError` (length mismatch) otherwise. -/
def setColumns (f : ParsedFrame) (names : List String) : Except String ParsedFrame :=
  if names.length = f.columns.length then
    .ok { f with columns := names }
  else
    .error "Length mismatch"

/-- The column-count reconciliation of `process_data_file` (lines 434-447),
verbatim: when the parsed column count differs from the expected count, the
`>=` branch assigns `expected_columns[:len(df.columns)]` as the new names
(a Python slice, clamped at the end of the list), and the `<` branch first
adds each missing trailing expected column with value `0` and then assigns
the full expected list. -/
def reconcile (expected : List String) (f : ParsedFrame) : Except String ParsedFrame :=
  if f.columns.length ≠ expected.length then
    if f.columns.length ≥ expected.length then
      setColumns f (expected.take f.columns.length)
    else
      setColumns ((expected.drop f.columns.length).foldl (fun acc c => assignColumn acc c 0) f) expected
  else
    setColumns f expected

/-- Python `str.isdigit` (nonempty, all digit characters), as used by
`scan_data_files` on participant and session directory names. -/
def pyIsDigit (s : String) : Bool := !(s.data == []) && s.data.all Char.isDigit

/-- The numeric value a digit string stores in an `INTEGER`-affinity SQLite
column: `process_data_file` writes the session directory name (a Python
string) into the `session_id INTEGER` column, and SQLite's type affinity
converts the digit string to the integer it spells. -/
def sqlSessionId (s : String) : Int :=
  if pyIsDigit s then Int.ofNat (s.data.foldl (fun acc c => acc * 10 + (c.toNat - 48)) 0) else 0

/-- Convert one reconciled frame row into a stored table row: the value under
the frame's `timestamp` column (position looked up by name), the tag columns
added by `df['participant_id'] = ...` / `df['session_id'] = ...`, and the raw
cells. -/
def frameRowToSensorRow (cols : List String) (pid : String) (sid : Int) (r : List Int) : SensorRow :=
  { timestamp := match cols.findIdx? (fun c => c == "timestamp") with
                 | some i => r.getD i 0
                 | none => 0
    participant_id := pid
    session_id := sid
    values := r }

/-- `df.to_sql(name, conn, if_exists='append')`: append the rows to the first
table of that name, creating the table when none exists. -/
def insertRows : List Table → String → List String → List SensorRow → List Table
  | [], name, cols, rs => [⟨name, cols, rs⟩]
  | t :: ts, name, cols, rs =>
    if t.name == name then { t with rows := t.rows ++ rs } :: ts
    else t :: insertRows ts name cols rs

/-- `process_data_file` (lines 414-461): read the file, reconcile its columns
against the sensor's expected layout, tag the rows, append them to the
sensor's table, and return the number of records; any exception on the way is
caught by the surrounding `try`/`except`, which logs and returns `0` records,
leaving the store untouched. -/
def process_data_file (st : Store) (fi : FileInfo) : Store × Nat :=
  match sensor_definitions.find? (fun d => d.name == fi.sensor_name) with
  | none => (st, 0)
  | some d =>
    match readFrame fi with
    | .error _ => (st, 0)
    | .ok f =>
      match reconcile d.columns f with
      | .error _ => (st, 0)
      | .ok f2 =>
        let cols := f2.columns ++ ["participant_id", "session_id"]
        let sid := sqlSessionId fi.session_id
        let newRows := f2.rows.map (frameRowToSensorRow f2.columns fi.participant_id sid)
        ({ st with tables := insertRows st.tables fi.sensor_name cols newRows }, f2.rows.length)

/-- The columns of the `CREATE TABLE` statement for one sensor
(`create_database_schema`, lines 306-331): the autoincrement `id`, the
sensor's canonical columns, then `participant_id`, `session_id`,
`created_at`. -/
def schemaColumns (d : SensorDef) : List String :=
  "id" :: d.columns ++ ["participant_id", "session_id", "created_at"]

/-- `CREATE TABLE IF NOT EXISTS` for every sensor definition, in catalog
order: an existing table is kept as is, a missing one is created empty. -/
def createTables : List SensorDef → List Table → List Table
  | [], ts => ts
  | d :: defs, ts =>
    createTables defs (if ts.any (fun t => t.name == d.name) then ts else ts ++ [⟨d.name, schemaColumns d, []⟩])

/-- `INSERT OR REPLACE INTO data_dictionary`: replace the entry with the same
primary key, or append a new one. -/
def upsertDict : List DictEntry → DictEntry → List DictEntry
  | [], e => [e]
  | d :: ds, e => if d.sensor_name == e.sensor_name then e :: ds else d :: upsertDict ds e

/-- `create_database_schema` (lines 289-363): create the participants table
and every sensor table if absent, and refresh the data-dictionary mirror. -/
def create_database_schema (st : Store) : Store :=
  { st with
    tables := createTables sensor_definitions st.tables
    data_dictionary :=
      sensor_definitions.foldl (fun acc d => upsertDict acc ⟨d.name, d.description⟩) st.data_dictionary }

/-- `load_metadata` (lines 365-379): when `metadata.csv` exists, bulk-replace
the participants table with its rows (`if_exists='replace'`); when it is
absent, log a warning and leave the store unchanged. -/
def load_metadata (meta : Option (List ParticipantRow)) (st : Store) : Store :=
  match meta with
  | some rows => { st with participants := rows }
  | none => st

/-- `extract_all_data` (lines 463-498): create the schema, load the metadata,
then process every discovered file in scan order. -/
def extract_all_data (meta : Option (List ParticipantRow)) (files : List FileInfo) (st : Store) : Store :=
  files.foldl (fun s fi => (process_data_file s fi).1) (load_metadata meta (create_database_schema st))

/-! ## Query Service (`database.py`) — store-level query semantics -/

/-- Look a table up by name, as SQLite resolves `FROM {name}` /
the `sqlite_master` existence check. -/
def Store.findTable (st : Store) (name : String) : Option Table :=
  st.tables.find? (fun t => t.name == name)

/-- SQLite text ordering on two strings (codepoint-wise lexicographic), for
the `ORDER BY` clauses over `TEXT` columns. -/
def charListLe : List Char → List Char → Bool
  | [], _ => true
  | _ :: _, [] => false
  | a :: as, b :: bs => if a.toNat = b.toNat then charListLe as bs else decide (a.toNat < b.toNat)

def strLe (a b : String) : Bool := charListLe a.data b.data

/-- `get_participants` (lines 42-63): `SELECT participant_id, low_session,
medium_session, high_session FROM participants ORDER BY participant_id`. -/
def Store.get_participants (st : Store) : List ParticipantRow :=
  st.participants.insertionSort (fun a b => strLe a.participant_id b.participant_id = true)

/-- `get_available_sensors` (lines 65-84): `SELECT sensor_name, description
FROM data_dictionary ORDER BY sensor_name`. -/
def Store.get_available_sensors (st : Store) : List DictEntry :=
  st.data_dictionary.insertionSort (fun a b => strLe a.sensor_name b.sensor_name = true)

/-- `get_sensor_stats` (lines 86-94): `SELECT COUNT(*) FROM {sensor_type}_data`
— note the appended `_data` suffix; a missing table makes the execute raise. -/
def Store.get_sensor_stats (st : Store) (sensor_type : String) : Except String Nat :=
  match st.findTable (sensor_type ++ "_data") with
  | none => .error "no such table"
  | some t => .ok t.rows.length

/-- One `participant_stats` entry of `get_sensor_data_summary`. -/
structure ParticipantStat where
  participant_id : String
  session_id : Int
  record_count : Nat
deriving DecidableEq

/-- The result dictionary of `get_sensor_data_summary`. -/
structure SensorSummary where
  sensor_name : String
  total_records : Nat
  participant_stats : List ParticipantStat
deriving DecidableEq

/-- The `(participant_id, session_id)` ordering of the summary's
`ORDER BY participant_id, session_id`. -/
def pidSidLeB (a b : String × Int) : Bool :=
  if a.1 == b.1 then a.2 ≤ b.2 else strLe a.1 b.1

/-- `GROUP BY participant_id, session_id` with `COUNT(*)`, ordered by the
group key. -/
def groupStats (rows : List SensorRow) : List ParticipantStat :=
  let keys := ((rows.map (fun r => (r.participant_id, r.session_id))).dedup).insertionSort
    (fun a b => pidSidLeB a b = true)
  keys.map (fun k =>
    ⟨k.1, k.2, (rows.filter (fun r => r.participant_id == k.1 && r.session_id == k.2)).length⟩)

/-- `get_sensor_data_summary` (lines 121-158): check `sqlite_master` for the
table; `None` when it is absent; otherwise the row count and the grouped
per-participant counts. -/
def Store.get_sensor_data_summary (st : Store) (sensor_name : String) : Option SensorSummary :=
  match st.findTable sensor_name with
  | none => none
  | some t => some ⟨sensor_name, t.rows.length, groupStats t.rows⟩

/-- Python truthiness of the optional `participant_id` argument: `None` and
the empty string are falsy. -/
def pyTruthyStr (v : Option String) : Bool :=
  match v with
  | none => false
  | some s => !(s == "")

/-- Python truthiness of the optional `session_id` argument: `None` and `0`
are falsy. -/
def pyTruthyInt (v : Option Int) : Bool :=
  match v with
  | none => false
  | some n => !(n == 0)

/-- The `WHERE` clause built by `get_sensor_data` (lines 173-185): a
conjunctive condition is added for each truthy argument. -/
def rowMatches (pid : Option String) (sid : Option Int) (r : SensorRow) : Bool :=
  (!(pyTruthyStr pid) || r.participant_id == pid.getD "") &&
  (!(pyTruthyInt sid) || r.session_id == sid.getD 0)

/-- `ORDER BY timestamp` ascending. -/
def tsLE (a b : SensorRow) : Prop := a.timestamp ≤ b.timestamp

instance : DecidableRel tsLE := fun a b => inferInstanceAs (Decidable (a.timestamp ≤ b.timestamp))

instance : IsTotal SensorRow tsLE := ⟨fun a b => Int.le_total a.timestamp b.timestamp⟩

instance : IsTrans SensorRow tsLE := ⟨fun _ _ _ h1 h2 => le_trans h1 h2⟩

/-- The result dictionary of the effective `get_sensor_data` definition. -/
structure QueryResult where
  sensor_name : String
  columns : List String
  data : List SensorRow
  total_records : Nat
deriving DecidableEq

/-- The effective `get_sensor_data` (lines 160-214; the second definition in
the class body, which shadows the first): build the conjunctive filter from
the truthy arguments, read the column names with `PRAGMA table_info`, and run
`SELECT * ... WHERE ... ORDER BY timestamp LIMIT ?`.  The `SELECT` raises
when the table does not exist; a negative SQLite `LIMIT` means no limit. -/
def Store.get_sensor_data (st : Store) (sensor_name : String) (pid : Option String)
    (sid : Option Int) (limit : Int) : Except String QueryResult :=
  match st.findTable sensor_name with
  | none => .error "no such table"
  | some t =>
    let matching := t.rows.filter (rowMatches pid sid)
    let sorted := matching.insertionSort tsLE
    let dat := if limit < 0 then sorted else sorted.take limit.toNat
    .ok ⟨sensor_name, t.columns, dat, dat.length⟩

/-- One per-session count of `get_participant_overview`. -/
structure SessionStat where
  session_id : Int
  record_count : Nat
deriving DecidableEq

/-- One `sensor_stats` entry of `get_participant_overview`. -/
structure SensorStat where
  sensor_name : String
  description : String
  session_stats : List SessionStat
deriving DecidableEq

/-- The overview dictionary of `get_participant_overview`. -/
structure Overview where
  participant_id : String
  participant_info : ParticipantRow
  sensor_stats : List SensorStat
deriving DecidableEq

/-- Per-table record counts of `get_database_stats`, sorted descending by
count (Python `sorted(..., reverse=True)`, a stable sort). -/
def databaseSensorStats (st : Store) : List (String × Nat) :=
  (st.tables.map (fun t => (t.name, t.rows.length))).insertionSort (fun a b => b.2 ≤ a.2)

/-- The stats dictionary of `get_database_stats`. -/
structure DatabaseStats where
  total_participants : Nat
  total_sensor_types : Nat
  sensor_stats : List (String × Nat)
deriving DecidableEq

/-- `get_database_stats` (lines 293-326): participant count, dictionary count
and the per-table counts over every non-meta table. -/
def Store.get_database_stats (st : Store) : DatabaseStats :=
  ⟨st.participants.length, st.data_dictionary.length, databaseSensorStats st⟩

/-! ## Query Service — connection state (`FatigueSetDatabase`) -/

/-- The observable state of the sqlite3 connection object cached in
`self.conn`: a live connection, or one whose `close()` has run. -/
inductive ConnState where
  | conn_open : ConnState
  | conn_closed : ConnState
deriving DecidableEq

/-- A `FatigueSetDatabase` instance: the store behind `db_path` and the
cached `self.conn` (`None` until the first `connect`). -/
structure DB where
  store : Store
  conn : Option ConnState
deriving DecidableEq

/-- `connect` (lines 29-34): create a connection only when `self.conn` is
falsy (`None`); otherwise hand back the cached object, closed or not. -/
def DB.connect (db : DB) : DB × ConnState :=
  match db.conn with
  | none => ({ db with conn := some .conn_open }, .conn_open)
  | some c => (db, c)

/-- The `sqlite3.ProgrammingError` raised by any `execute` on a closed
connection. -/
def closedConnErr : String := "Cannot operate on a closed database."

/-- Method `get_participants`: connect, query, `conn.close()` — the close
mutates the cached connection object but `self.conn` keeps pointing at it. -/
def DB.get_participants (db : DB) : DB × Except String (List ParticipantRow) :=
  match db.connect with
  | (db1, .conn_closed) => (db1, .error closedConnErr)
  | (db1, .conn_open) => ({ db1 with conn := some .conn_closed }, .ok db1.store.get_participants)

/-- Method `get_available_sensors`: connect, query, `conn.close()`. -/
def DB.get_available_sensors (db : DB) : DB × Except String (List DictEntry) :=
  match db.connect with
  | (db1, .conn_closed) => (db1, .error closedConnErr)
  | (db1, .conn_open) => ({ db1 with conn := some .conn_closed }, .ok db1.store.get_available_sensors)

/-- Method `get_sensor_stats`: connect, count `{sensor_type}_data`,
`conn.close()` — the close is reached only when the count succeeds. -/
def DB.get_sensor_stats (db : DB) (sensor_type : String) : DB × Except String Nat :=
  match db.connect with
  | (db1, .conn_closed) => (db1, .error closedConnErr)
  | (db1, .conn_open) =>
    match db1.store.get_sensor_stats sensor_type with
    | .error msg => (db1, .error msg)
    | .ok n => ({ db1 with conn := some .conn_closed }, .ok n)

/-- Method `get_sensor_data_summary`: connect and query; no path of the
method body closes the connection. -/
def DB.get_sensor_data_summary (db : DB) (sensor_name : String) :
    DB × Except String (Option SensorSummary) :=
  match db.connect with
  | (db1, .conn_closed) => (db1, .error closedConnErr)
  | (db1, .conn_open) => (db1, .ok (db1.store.get_sensor_data_summary sensor_name))

/-- Method `get_sensor_data` (the effective definition): connect and query;
no path of the method body closes the connection. -/
def DB.get_sensor_data (db : DB) (sensor_name : String) (pid : Option String)
    (sid : Option Int) (limit : Int) : DB × Except String QueryResult :=
  match db.connect with
  | (db1, .conn_closed) => (db1, .error closedConnErr)
  | (db1, .conn_open) => (db1, db1.store.get_sensor_data sensor_name pid sid limit)

/-- Method `get_participant_overview` (`database.py`, lines 216-263):
connect and look the participant up; `None` for an absent participant, with
the connection left open.  For a present participant the body then calls
`self.get_available_sensors()` (line 231): that nested call's `connect()`
hands back the SAME cached connection object (a closed `sqlite3.Connection`
is still truthy), queries the dictionary, and ends with `conn.close()`
(line 75) — closing the connection under the outer cursor.  With a nonempty
sensor list the first per-sensor `cursor.execute` of the loop (line 237)
therefore raises `sqlite3.ProgrammingError`; only when `data_dictionary` is
empty is the loop skipped and the overview returned — with an empty
`sensor_stats` list and the connection left closed. -/
def DB.get_participant_overview (db : DB) (pid : String) :
    DB × Except String (Option Overview) :=
  match db.connect with
  | (db1, .conn_closed) => (db1, .error closedConnErr)
  | (db1, .conn_open) =>
    match db1.store.participants.find? (fun p => p.participant_id == pid) with
    | none => (db1, .ok none)
    | some info =>
      match db1.store.get_available_sensors with
      | [] => ({ db1 with conn := some ConnState.conn_closed }, .ok (some ⟨pid, info, []⟩))
      | _ :: _ => ({ db1 with conn := some ConnState.conn_closed }, .error closedConnErr)

/-- Method `get_database_stats`: connect and query; no path of the method
body closes the connection. -/
def DB.get_database_stats (db : DB) : DB × Except String DatabaseStats :=
  match db.connect with
  | (db1, .conn_closed) => (db1, .error closedConnErr)
  | (db1, .conn_open) => (db1, .ok db1.store.get_database_stats)

/-- The search parameter dictionary of `search_data`: `search_params.get`
yields `None` for an absent key. -/
structure SearchParams where
  sensor_name : Option String
  participant_id : Option String
  session_id : Option Int
  limit : Option Int
deriving DecidableEq

/-- What `search_data` returns when it does not raise: one of the delegated
results, or the `{'error': ...}` dictionary. -/
inductive SearchOutcome where
  | participantList : List ParticipantRow → SearchOutcome
  | sensorList : List DictEntry → SearchOutcome
  | dataResult : QueryResult → SearchOutcome
  | errorResult : String → SearchOutcome
deriving DecidableEq

/-- Method `search_data` (lines 265-291): dispatch on `query_type`; for
`data` a falsy `sensor_name` yields the error dictionary before any database
access; an unrecognized type yields the error dictionary directly. -/
def DB.search_data (db : DB) (query_type : String) (p : SearchParams) :
    DB × Except String SearchOutcome :=
  if query_type == "participants" then
    match db.get_participants with
    | (db1, .error msg) => (db1, .error msg)
    | (db1, .ok r) => (db1, .ok (.participantList r))
  else if query_type == "sensors" then
    match db.get_available_sensors with
    | (db1, .error msg) => (db1, .error msg)
    | (db1, .ok r) => (db1, .ok (.sensorList r))
  else if query_type == "data" then
    if pyTruthyStr p.sensor_name then
      match db.get_sensor_data (p.sensor_name.getD "") p.participant_id p.session_id (p.limit.getD 1000) with
      | (db1, .error msg) => (db1, .error msg)
      | (db1, .ok r) => (db1, .ok (.dataResult r))
    else
      (db, .ok (.errorResult "sensor_name is required"))
  else
    (db, .ok (.errorResult "Invalid query type"))

/-! ## Helper lemmas -/

/-- Row count of the (first) table of a given name; `0` when absent. -/
def countIn : List Table → String → Nat
  | [], _ => 0
  | t :: ts, s => if t.name == s then t.rows.length else countIn ts s

/-- Row count of a sensor table of the store. -/
def Store.rowCount (st : Store) (s : String) : Nat := countIn st.tables s

theorem countIn_insertRows (ts : List Table) (n : String) (cols : List String)
    (rs : List SensorRow) (s : String) :
    countIn (insertRows ts n cols rs) s = countIn ts s + (if n == s then rs.length else 0) := by
  induction ts with
  | nil =>
    cases h : (n == s) <;> simp [insertRows, countIn, h]
  | cons t ts ih =>
    by_cases h1 : t.name = n
    · by_cases h2 : t.name = s
      · have hns : n = s := h1 ▸ h2
        simp [insertRows, countIn, h1, h2, hns]
      · have hns : ¬(n = s) := fun hc => h2 (h1.trans hc)
        simp [insertRows, countIn, h1, h2, hns]
    · by_cases h2 : t.name = s
      · have hns : ¬(n = s) := fun hc => h1 (h2.trans hc.symm)
        have hsn : ¬(s = n) := fun hc => hns hc.symm
        simp [insertRows, countIn, h1, h2, hns, hsn]
      · simp [insertRows, countIn, h1, h2, ih]

theorem countIn_append_empty (ts : List Table) (n : String) (cols : List String) (s : String) :
    countIn (ts ++ [⟨n, cols, []⟩]) s = countIn ts s := by
  induction ts with
  | nil => cases h : (n == s) <;> simp [countIn, h]
  | cons t ts ih => by_cases h : t.name = s <;> simp [countIn, h, ih]

theorem countIn_createTables (defs : List SensorDef) (ts : List Table) (s : String) :
    countIn (createTables defs ts) s = countIn ts s := by
  induction defs generalizing ts with
  | nil => simp [createTables]
  | cons d defs ih =>
    by_cases h : ts.any (fun t => t.name == d.name)
    · simp [createTables, h, ih]
    · simp [createTables, h, ih, countIn_append_empty]

/-- The number of rows `process_data_file` appends to the sensor table `s`,
as a function of the file alone: the appended rows never depend on the store. -/
def fileContribution (fi : FileInfo) (s : String) : Nat :=
  match sensor_definitions.find? (fun d => d.name == fi.sensor_name) with
  | none => 0
  | some d =>
    match readFrame fi with
    | .error _ => 0
    | .ok f =>
      match reconcile d.columns f with
      | .error _ => 0
      | .ok f2 => if fi.sensor_name == s then f2.rows.length else 0

theorem rowCount_process_data_file (st : Store) (fi : FileInfo) (s : String) :
    ((process_data_file st fi).1).rowCount s = st.rowCount s + fileContribution fi s := by
  unfold process_data_file fileContribution
  cases hd : sensor_definitions.find? (fun d => d.name == fi.sensor_name) with
  | none => simp
  | some d =>
    cases hr : readFrame fi with
    | error msg => simp
    | ok f =>
      cases hc : reconcile d.columns f with
      | error msg => simp [hc]
      | ok f2 => simp [hc, Store.rowCount, countIn_insertRows]

theorem rowCount_foldl_process (files : List FileInfo) (st : Store) (s : String) :
    (files.foldl (fun acc fi => (process_data_file acc fi).1) st).rowCount s
      = st.rowCount s + (files.map (fun fi => fileContribution fi s)).sum := by
  induction files generalizing st with
  | nil => simp
  | cons fi files ih =>
    simp only [List.foldl_cons, List.map_cons, List.sum_cons]
    rw [ih, rowCount_process_data_file]
    omega

theorem rowCount_extract_all_data (meta : Option (List ParticipantRow)) (files : List FileInfo)
    (st : Store) (s : String) :
    (extract_all_data meta files st).rowCount s
      = st.rowCount s + (files.map (fun fi => fileContribution fi s)).sum := by
  unfold extract_all_data
  rw [rowCount_foldl_process]
  have hmeta : (load_metadata meta (create_database_schema st)).rowCount s
      = (create_database_schema st).rowCount s := by
    cases meta <;> simp [load_metadata, Store.rowCount]
  rw [hmeta]
  simp [Store.rowCount, create_database_schema, countIn_createTables]

theorem assignColumn_fresh (f : ParsedFrame) (c : String) (v : Int) (h : c ∉ f.columns) :
    assignColumn f c v = ⟨f.columns ++ [c], f.rows.map (fun r => r ++ [v])⟩ := by
  simp [assignColumn, h]

theorem padFold (cs : List String) (f : ParsedFrame) (hnd : cs.Nodup)
    (hfresh : ∀ c ∈ cs, c ∉ f.columns) :
    cs.foldl (fun acc c => assignColumn acc c 0) f
      = ⟨f.columns ++ cs, f.rows.map (fun r => r ++ List.replicate cs.length 0)⟩ := by
  induction cs generalizing f with
  | nil => simp
  | cons c cs ih =>
    have hc : c ∉ f.columns := hfresh c (List.mem_cons_self c cs)
    have hcs : cs.Nodup := (List.nodup_cons.mp hnd).2
    have hcnotin : c ∉ cs := (List.nodup_cons.mp hnd).1
    have hfresh2 : ∀ x ∈ cs, x ∉ f.columns ++ [c] := by
      intro x hx hmem
      rcases List.mem_append.mp hmem with hm | hm
      · exact hfresh x (List.mem_cons_of_mem c hx) hm
      · rcases List.mem_singleton.mp hm with rfl
        exact hcnotin hx
    rw [List.foldl_cons, assignColumn_fresh f c 0 hc,
      ih ⟨f.columns ++ [c], f.rows.map (fun r => r ++ [0])⟩ hcs hfresh2]
    refine congrArg₂ ParsedFrame.mk ?_ ?_
    · simp
    · rw [List.map_map]
      apply List.map_congr_left
      intro r _
      simp [List.append_assoc, List.replicate_succ]

theorem insertionSort_eq_nil_iff {α : Type} (r : α → α → Prop) [DecidableRel r] (l : List α) :
    l.insertionSort r = [] ↔ l = [] := by
  constructor
  · intro h
    have hp := List.perm_insertionSort r l
    rw [h] at hp
    exact List.perm_nil.mp hp.symm
  · intro h
    rw [h]
    rfl

/-- All query methods that touch the connection raise once the cached
connection is closed: every one of them begins with an `execute` on the
connection `connect` hands back. -/
def allQueriesFail (db : DB) : Prop :=
  (db.get_participants).2 = .error closedConnErr ∧
  (db.get_available_sensors).2 = .error closedConnErr ∧
  (∀ s, (db.get_sensor_stats s).2 = .error closedConnErr) ∧
  (∀ s, (db.get_sensor_data_summary s).2 = .error closedConnErr) ∧
  (∀ s pid sid lim, (db.get_sensor_data s pid sid lim).2 = .error closedConnErr) ∧
  (∀ p, (db.get_participant_overview p).2 = .error closedConnErr) ∧
  (db.get_database_stats).2 = .error closedConnErr ∧
  (∀ p, (db.search_data "participants" p).2 = .error closedConnErr) ∧
  (∀ p, (db.search_data "sensors" p).2 = .error closedConnErr) ∧
  (∀ p, pyTruthyStr p.sensor_name = true → (db.search_data "data" p).2 = .error closedConnErr)

theorem conn_closed_all_fail (db : DB) (h : db.conn = some ConnState.conn_closed) :
    allQueriesFail db := by
  have hconn : db.connect = (db, ConnState.conn_closed) := by simp [DB.connect, h]
  refine ⟨?_, ?_, ?_, ?_, ?_, ?_, ?_, ?_, ?_, ?_⟩
  · simp [DB.get_participants, hconn]
  · simp [DB.get_available_sensors, hconn]
  · intro s
    simp [DB.get_sensor_stats, hconn]
  · intro s
    simp [DB.get_sensor_data_summary, hconn]
  · intro s pid sid lim
    simp [DB.get_sensor_data, hconn]
  · intro p
    simp [DB.get_participant_overview, hconn]
  · simp [DB.get_database_stats, hconn]
  · intro p
    simp [DB.search_data, DB.get_participants, hconn]
  · intro p
    simp [DB.search_data, DB.get_available_sensors, hconn]
  · intro p hp
    simp [DB.search_data, DB.get_sensor_data, hconn, hp]

/-! ## Shared concrete fixtures for witnesses and counterexamples -/

/-- The store `extract_all_data` produces before any file is loaded: every
sensor table created empty, the dictionary mirror filled. -/
def freshStore : Store := create_database_schema emptyStore

/-- A small populated store: one participant, plus — on top of the schema
tables — a table named `wrist_hr_data`, so that `get_sensor_stats` (which
appends `_data` to its argument) can succeed on it. -/
def demoStore : Store :=
  { freshStore with
    participants := [⟨"101", some 1, some 2, some 3⟩]
    tables := freshStore.tables ++ [⟨"wrist_hr_data", ["id"], []⟩] }

/-- A `wrist_hr.csv` file holding ten rows with distinct timestamps. -/
def tenRowsFile : FileInfo :=
  ⟨"101", "1", "wrist_hr", ".csv",
    some ⟨["timestamp", "hr"],
      [[10, 1], [9, 2], [8, 3], [7, 4], [6, 5], [5, 6], [4, 7], [3, 8], [2, 9], [1, 10]]⟩,
    none, none⟩

/-- The store after extracting `tenRowsFile` into an empty target. -/
def tenRowStore : Store := extract_all_data none [tenRowsFile] emptyStore

/-- The `wrist_hr` table of `tenRowStore`. -/
def t10 : Table :=
  ⟨"wrist_hr", ["id", "timestamp", "hr", "participant_id", "session_id", "created_at"],
    [⟨10, "101", 1, [10, 1]⟩, ⟨9, "101", 1, [9, 2]⟩, ⟨8, "101", 1, [8, 3]⟩,
     ⟨7, "101", 1, [7, 4]⟩, ⟨6, "101", 1, [6, 5]⟩, ⟨5, "101", 1, [5, 6]⟩,
     ⟨4, "101", 1, [4, 7]⟩, ⟨3, "101", 1, [3, 8]⟩, ⟨2, "101", 1, [2, 9]⟩,
     ⟨1, "101", 1, [1, 10]⟩]⟩

/-! ## Claim theorems -/

/-- C1 counterexample: a discovered `wrist_hr` file whose comma parse has one
column more than the expected two is NOT loaded with the extra trailing
column dropped — `df.columns = expected_columns[:len(df.columns)]` assigns 2
names to a 3-column frame, pandas raises a length mismatch, the per-file
handler catches it, and the file contributes 0 records, leaving the store
unchanged (the claim predicts its 1 data row would be loaded). -/
theorem c1_surplus_file_skipped :
    process_data_file freshStore
      ⟨"1", "1", "wrist_hr", ".csv", some ⟨["timestamp", "hr", "x"], [[1, 70, 5]]⟩, none, none⟩
      = (freshStore, 0) ∧
    freshStore.rowCount "wrist_hr" = 0 ∧
    (some (⟨["timestamp", "hr", "x"], [[1, 70, 5]]⟩ : ParsedFrame)).map (fun f => f.rows.length)
      = some 1 ∧
    (sensor_definitions.find? (fun d => d.name == "wrist_hr")).map (fun d => d.columns.length)
      = some 2 := by
  refine ⟨by decide, by decide, by decide, by decide⟩

/-- C1 (amended): the reconciliation of `process_data_file` renames
positionally when the parsed column count equals the expected count; when it
is smaller (and the missing trailing canonical names are fresh and distinct)
it pads the missing trailing columns with zero and renames to the full
canonical list; but when it is larger the rename raises a length-mismatch
error — the file is then skipped with zero records and an unchanged store,
not loaded with the extra columns dropped. -/
theorem c1_reconcile_policy :
    (∀ (expected : List String) (f : ParsedFrame), f.columns.length = expected.length →
      reconcile expected f = .ok { f with columns := expected }) ∧
    (∀ (expected : List String) (f : ParsedFrame), f.columns.length < expected.length →
      (expected.drop f.columns.length).Nodup →
      (∀ c ∈ expected.drop f.columns.length, c ∉ f.columns) →
      reconcile expected f = .ok ⟨expected,
        f.rows.map (fun r => r ++ List.replicate (expected.length - f.columns.length) 0)⟩) ∧
    (∀ (expected : List String) (f : ParsedFrame), expected.length < f.columns.length →
      reconcile expected f = .error "Length mismatch") ∧
    (∀ (st : Store) (fi : FileInfo) (d : SensorDef) (f : ParsedFrame) (msg : String),
      sensor_definitions.find? (fun x => x.name == fi.sensor_name) = some d →
      readFrame fi = .ok f → reconcile d.columns f = .error msg →
      process_data_file st fi = (st, 0)) := by
  refine ⟨?_, ?_, ?_, ?_⟩
  · intro expected f h
    simp [reconcile, setColumns, h]
  · intro expected f h hnd hfresh
    have hne : f.columns.length ≠ expected.length := Nat.ne_of_lt h
    have hge : ¬(f.columns.length ≥ expected.length) := Nat.not_le.mpr h
    unfold reconcile
    rw [if_pos hne, if_neg hge, padFold _ f hnd hfresh]
    unfold setColumns
    have hlen : expected.length = (f.columns ++ expected.drop f.columns.length).length := by
      simp only [List.length_append, List.length_drop]
      omega
    rw [if_pos hlen]
    simp [List.length_drop]
  · intro expected f h
    have hne : f.columns.length ≠ expected.length := (Nat.ne_of_lt h).symm
    have hge : f.columns.length ≥ expected.length := Nat.le_of_lt h
    unfold reconcile setColumns
    rw [if_pos hne, if_pos hge]
    have hlen : ¬((expected.take f.columns.length).length = f.columns.length) := by
      simp only [List.length_take]
      omega
    rw [if_neg hlen]
  · intro st fi d f msg hfind hread hrec
    simp only [process_data_file, hfind, hread, hrec]

/-- C1 witness: the amended policy applied at concrete inputs — an equal-count
frame is renamed, a one-column-short frame is padded with a zero column, a
one-column-long frame makes the rename fail, and a reconcile failure makes
`process_data_file` return the store unchanged with 0 records. -/
theorem c1_reconcile_policy_witness :
    reconcile ["timestamp", "hr"] ⟨["a", "b"], [[1, 2]]⟩
      = .ok ⟨["timestamp", "hr"], [[1, 2]]⟩ ∧
    reconcile ["timestamp", "hr"] ⟨["t"], [[1], [2]]⟩
      = .ok ⟨["timestamp", "hr"], [[1, 0], [2, 0]]⟩ ∧
    reconcile ["timestamp", "hr"] ⟨["timestamp", "hr", "x"], [[1, 70, 5]]⟩
      = .error "Length mismatch" ∧
    process_data_file emptyStore
      ⟨"1", "1", "wrist_hr", ".csv", some ⟨["timestamp", "hr", "x"], [[1, 70, 5]]⟩, none, none⟩
      = (emptyStore, 0) := by
  have h2 := c1_reconcile_policy.2.1 ["timestamp", "hr"] ⟨["t"], [[1], [2]]⟩
    (by decide) (by decide) (by decide)
  have h3 := c1_reconcile_policy.2.2.1 ["timestamp", "hr"]
    ⟨["timestamp", "hr", "x"], [[1, 70, 5]]⟩ (by decide)
  exact ⟨c1_reconcile_policy.1 ["timestamp", "hr"] ⟨["a", "b"], [[1, 2]]⟩ (by decide),
    h2,
    h3,
    c1_reconcile_policy.2.2.2 emptyStore
      ⟨"1", "1", "wrist_hr", ".csv", some ⟨["timestamp", "hr", "x"], [[1, 70, 5]]⟩, none, none⟩
      ⟨"wrist_hr", ["timestamp", "hr"], "手腕心率（过去10秒平均值）"⟩
      ⟨["timestamp", "hr", "x"], [[1, 70, 5]]⟩ "Length mismatch"
      (by decide) (by decide) (by decide)⟩

/-- C2 counterexample: a `.csv` file whose comma parse yields one column
(a mismatch against the two expected for `wrist_hr`) is returned as parsed by
comma even though the tab parse would yield the matching two-column frame —
the code never re-parses a `.csv` file, with any delimiter. -/
theorem c2_csv_no_fallback :
    readFrame ⟨"1", "1", "wrist_hr", ".csv", some ⟨["a"], [[1]]⟩,
        some ⟨["timestamp", "hr"], [[1, 2]]⟩, none⟩
      = .ok ⟨["a"], [[1]]⟩ ∧
    (sensor_definitions.find? (fun d => d.name == "wrist_hr")).map (fun d => d.columns.length)
      = some 2 := by
  refine ⟨by decide, by decide⟩

/-- C2 (amended): `process_data_file` chooses the delimiter by file
extension, not by column-count reconciliation: a `.csv` file is parsed with
the comma delimiter only (no fallback of any kind), and a non-`.csv` file is
parsed with the tab delimiter, falling back to the space delimiter only when
the tab parse raises. -/
theorem c2_delimiter_policy :
    (∀ (fi : FileInfo) (f : ParsedFrame), fi.suffix = ".csv" → fi.parseComma = some f →
      readFrame fi = .ok f) ∧
    (∀ fi : FileInfo, fi.suffix = ".csv" → fi.parseComma = none →
      readFrame fi = .error "read_csv failed") ∧
    (∀ (fi : FileInfo) (f : ParsedFrame), fi.suffix ≠ ".csv" → fi.parseTab = some f →
      readFrame fi = .ok f) ∧
    (∀ (fi : FileInfo) (f : ParsedFrame), fi.suffix ≠ ".csv" → fi.parseTab = none →
      fi.parseSpace = some f → readFrame fi = .ok f) := by
  refine ⟨?_, ?_, ?_, ?_⟩
  · intro fi f h hp
    simp [readFrame, h, hp]
  · intro fi h hp
    simp [readFrame, h, hp]
  · intro fi f h hp
    simp [readFrame, beq_iff_eq, h, hp]
  · intro fi f h hp hq
    simp [readFrame, beq_iff_eq, h, hp, hq]

/-- C2 witness: the delimiter policy at concrete files — a `.csv` file is
taken from the comma parse even when a tab parse exists, and a `.txt` file
whose tab parse raises is taken from the space parse. -/
theorem c2_delimiter_policy_witness :
    readFrame ⟨"1", "1", "wrist_hr", ".csv", some ⟨["a"], [[1]]⟩, some ⟨["b", "c"], [[1, 2]]⟩, none⟩
      = .ok ⟨["a"], [[1]]⟩ ∧
    readFrame ⟨"1", "1", "wrist_hr", ".txt", none, none, some ⟨["d"], [[3]]⟩⟩
      = .ok ⟨["d"], [[3]]⟩ :=
  ⟨c2_delimiter_policy.1 _ _ rfl rfl,
   c2_delimiter_policy.2.2.2 _ _ (by decide) rfl rfl⟩

/-- C3 counterexample: `get_database_stats` returns successfully with the
connection it opened still open — the method body contains no
`conn.close()`, so the connection is not released before the call returns. -/
theorem c3_stats_returns_with_open_conn :
    (DB.get_database_stats ⟨demoStore, none⟩).1.conn = some ConnState.conn_open ∧
    (∃ r, (DB.get_database_stats ⟨demoStore, none⟩).2 = .ok r) :=
  ⟨rfl, ⟨demoStore.get_database_stats, rfl⟩⟩

/-- C3 (amended): of the Query Service operations, only `get_participants`,
`get_available_sensors` and (on its success path) `get_sensor_stats` close
the connection before returning; `get_sensor_data_summary`, `get_sensor_data`
and `get_database_stats` return with the connection still open, and the
error exit of `get_sensor_stats` (missing table) also leaves it open.
`get_participant_overview` returns with the connection open only on the
participant-not-found path; for a present participant its nested
`get_available_sensors()` call closes the shared connection (the call then
usually raising on it). -/
theorem c3_connection_scope (db : DB) (h : db.conn = none) :
    (db.get_participants).1.conn = some ConnState.conn_closed ∧
    (db.get_available_sensors).1.conn = some ConnState.conn_closed ∧
    (∀ s n, (db.get_sensor_stats s).2 = .ok n →
      (db.get_sensor_stats s).1.conn = some ConnState.conn_closed) ∧
    (∀ s msg, (db.get_sensor_stats s).2 = .error msg →
      (db.get_sensor_stats s).1.conn = some ConnState.conn_open) ∧
    (∀ s, (db.get_sensor_data_summary s).1.conn = some ConnState.conn_open) ∧
    (∀ s pid sid lim, (db.get_sensor_data s pid sid lim).1.conn = some ConnState.conn_open) ∧
    (∀ p, db.store.participants.find? (fun q => q.participant_id == p) = none →
      (db.get_participant_overview p).1.conn = some ConnState.conn_open) ∧
    (∀ p info, db.store.participants.find? (fun q => q.participant_id == p) = some info →
      (db.get_participant_overview p).1.conn = some ConnState.conn_closed) ∧
    (db.get_database_stats).1.conn = some ConnState.conn_open := by
  have hconn : db.connect = ({ db with conn := some ConnState.conn_open }, ConnState.conn_open) := by
    simp [DB.connect, h]
  refine ⟨?_, ?_, ?_, ?_, ?_, ?_, ?_, ?_, ?_⟩
  · simp [DB.get_participants, hconn]
  · simp [DB.get_available_sensors, hconn]
  · intro s n hok
    cases hl : Store.get_sensor_stats db.store s with
    | error msg =>
      exfalso
      simp [DB.get_sensor_stats, hconn, hl] at hok
    | ok m =>
      simp [DB.get_sensor_stats, hconn, hl]
  · intro s msg herr
    cases hl : Store.get_sensor_stats db.store s with
    | error msg2 => simp [DB.get_sensor_stats, hconn, hl]
    | ok m =>
      exfalso
      simp [DB.get_sensor_stats, hconn, hl] at herr
  · intro s
    simp [DB.get_sensor_data_summary, hconn]
  · intro s pid sid lim
    simp [DB.get_sensor_data, hconn]
  · intro p hp
    simp [DB.get_participant_overview, hconn, hp]
  · intro p info hp
    cases hs : db.store.get_available_sensors with
    | nil => simp [DB.get_participant_overview, hconn, hp, hs]
    | cons e rest => simp [DB.get_participant_overview, hconn, hp, hs]
  · simp [DB.get_database_stats, hconn]

/-- C3 witness: the amended per-method connection behavior at a concrete
freshly constructed instance. -/
theorem c3_connection_scope_witness :
    (⟨demoStore, none⟩ : DB).conn = none ∧
    ((DB.get_participants ⟨demoStore, none⟩).1.conn = some ConnState.conn_closed ∧
     (DB.get_available_sensors ⟨demoStore, none⟩).1.conn = some ConnState.conn_closed ∧
     (∀ s n, (DB.get_sensor_stats ⟨demoStore, none⟩ s).2 = .ok n →
       (DB.get_sensor_stats ⟨demoStore, none⟩ s).1.conn = some ConnState.conn_closed) ∧
     (∀ s msg, (DB.get_sensor_stats ⟨demoStore, none⟩ s).2 = .error msg →
       (DB.get_sensor_stats ⟨demoStore, none⟩ s).1.conn = some ConnState.conn_open) ∧
     (∀ s, (DB.get_sensor_data_summary ⟨demoStore, none⟩ s).1.conn = some ConnState.conn_open) ∧
     (∀ s pid sid lim,
       (DB.get_sensor_data ⟨demoStore, none⟩ s pid sid lim).1.conn = some ConnState.conn_open) ∧
     (∀ p, demoStore.participants.find? (fun q => q.participant_id == p) = none →
       (DB.get_participant_overview ⟨demoStore, none⟩ p).1.conn = some ConnState.conn_open) ∧
     (∀ p info, demoStore.participants.find? (fun q => q.participant_id == p) = some info →
       (DB.get_participant_overview ⟨demoStore, none⟩ p).1.conn = some ConnState.conn_closed) ∧
     (DB.get_database_stats ⟨demoStore, none⟩).1.conn = some ConnState.conn_open) :=
  ⟨rfl, c3_connection_scope ⟨demoStore, none⟩ rfl⟩

/-- C4: against an existing sensor table, `get_sensor_data` returns (inside a
successful result) exactly the rows satisfying the conjunction of the
supplied filters, sorted by ascending timestamp, truncated to the first
`limit` of them — the result is a `limit`-prefix of a sorted permutation of
all matching rows, its length is `min limit` (number of matching rows), and
every returned row satisfies the filter. -/
theorem c4_get_sensor_data (st : Store) (name : String) (t : Table) (pid : Option String)
    (sid : Option Int) (limit : Int) (ht : st.findTable name = some t) (hl : 0 ≤ limit) :
    ∃ l, List.Perm (t.rows.filter (rowMatches pid sid)) l ∧ l.Sorted tsLE ∧
      (∀ r ∈ l.take limit.toNat, rowMatches pid sid r = true) ∧
      st.get_sensor_data name pid sid limit =
        .ok ⟨name, t.columns, l.take limit.toNat, (l.take limit.toNat).length⟩ ∧
      (l.take limit.toNat).length
        = min limit.toNat (t.rows.filter (rowMatches pid sid)).length := by
  refine ⟨(t.rows.filter (rowMatches pid sid)).insertionSort tsLE,
    (List.perm_insertionSort tsLE _).symm, List.sorted_insertionSort tsLE _, ?_, ?_, ?_⟩
  · intro r hr
    have hmem : r ∈ (t.rows.filter (rowMatches pid sid)).insertionSort tsLE :=
      List.mem_of_mem_take hr
    have hfil : r ∈ t.rows.filter (rowMatches pid sid) :=
      (List.perm_insertionSort tsLE _).mem_iff.mp hmem
    exact List.of_mem_filter hfil
  · have hnl : ¬(limit < 0) := not_lt.mpr hl
    simp [Store.get_sensor_data, ht, hnl]
  · rw [List.length_take, (List.perm_insertionSort tsLE _).length_eq]

/-- C4 witness: the spec's concrete test — a table of 10 rows queried with
`limit = 5` yields exactly the 5 rows of smallest timestamp. -/
theorem c4_get_sensor_data_witness :
    tenRowStore.findTable "wrist_hr" = some t10 ∧ (0 : Int) ≤ 5 ∧
    (∃ l, List.Perm (t10.rows.filter (rowMatches none none)) l ∧ l.Sorted tsLE ∧
      (∀ r ∈ l.take (5 : Int).toNat, rowMatches none none r = true) ∧
      tenRowStore.get_sensor_data "wrist_hr" none none 5 =
        .ok ⟨"wrist_hr", t10.columns, l.take (5 : Int).toNat, (l.take (5 : Int).toNat).length⟩ ∧
      (l.take (5 : Int).toNat).length
        = min (5 : Int).toNat (t10.rows.filter (rowMatches none none)).length) ∧
    (tenRowStore.get_sensor_data "wrist_hr" none none 5).map
        (fun r => r.data.map (fun x => x.timestamp)) = .ok [1, 2, 3, 4, 5] :=
  ⟨by decide, by decide,
   c4_get_sensor_data tenRowStore "wrist_hr" t10 none none 5 (by decide) (by decide),
   by decide⟩

/-- C5: `search_data` with `query_type = "data"` and no `sensor_name` in the
parameters returns the structured error dictionary without raising and
without touching the database, and any unrecognized `query_type` returns the
invalid-type error dictionary, also without raising. -/
theorem c5_search_data_errors :
    (∀ (db : DB) (p : SearchParams), p.sensor_name = none →
      db.search_data "data" p = (db, .ok (.errorResult "sensor_name is required"))) ∧
    (∀ (db : DB) (qt : String) (p : SearchParams),
      qt ≠ "participants" → qt ≠ "sensors" → qt ≠ "data" →
      db.search_data qt p = (db, .ok (.errorResult "Invalid query type"))) := by
  constructor
  · intro db p hp
    have e1 : ("data" == "participants") = false := by decide
    have e2 : ("data" == "sensors") = false := by decide
    have e3 : ("data" == "data") = true := by decide
    simp [DB.search_data, e1, e2, e3, hp, pyTruthyStr]
  · intro db qt p h1 h2 h3
    have e1 : (qt == "participants") = false := beq_eq_false_iff_ne.mpr h1
    have e2 : (qt == "sensors") = false := beq_eq_false_iff_ne.mpr h2
    have e3 : (qt == "data") = false := beq_eq_false_iff_ne.mpr h3
    simp [DB.search_data, e1, e2, e3]

/-- C5 witness: both error paths at concrete calls. -/
theorem c5_search_data_errors_witness :
    DB.search_data ⟨demoStore, none⟩ "data" ⟨none, some "101", some 1, some 10⟩ =
      (⟨demoStore, none⟩, .ok (.errorResult "sensor_name is required")) ∧
    DB.search_data ⟨demoStore, none⟩ "bogus" ⟨some "wrist_hr", none, none, none⟩ =
      (⟨demoStore, none⟩, .ok (.errorResult "Invalid query type")) :=
  ⟨c5_search_data_errors.1 _ _ rfl,
   c5_search_data_errors.2 _ "bogus" _ (by decide) (by decide) (by decide)⟩

/-- C6 counterexample: participant `"101"` is present in `participants` and
has zero matching rows in every sensor table, yet `get_participant_overview`
raises `sqlite3.ProgrammingError` instead of returning the overview with an
empty `sensor_stats` list that the claim asserts: the nested
`get_available_sensors()` call closed the shared cached connection before
the (nonempty) sensor loop ran its first query. -/
theorem c6_overview_raises_for_present :
    (DB.get_participant_overview ⟨demoStore, none⟩ "101").2 = .error closedConnErr ∧
    demoStore.participants.find? (fun p => p.participant_id == "101")
      = some ⟨"101", some 1, some 2, some 3⟩ ∧
    (∀ e ∈ demoStore.data_dictionary, ∀ t, demoStore.findTable e.sensor_name = some t →
      t.rows.filter (fun r => r.participant_id == "101") = []) ∧
    demoStore.data_dictionary ≠ [] := by
  refine ⟨by decide, by decide, by decide, by decide⟩

/-- The amended C6 property of `get_participant_overview`, entered on an
instance whose cached connection is `None`: the not-found sentinel appears
exactly for participants absent from `participants`; for a present
participant the nested `get_available_sensors()` closes the shared
connection, so with a nonempty `data_dictionary` the call raises on the
closed connection instead of returning, and only with an empty dictionary
does it return an overview — whose `sensor_stats` is empty; hence every
successfully returned overview has an empty `sensor_stats` list. -/
def OverviewBehavior (db : DB) (pid : String) : Prop :=
  ((db.get_participant_overview pid).2 = .ok none ↔
    db.store.participants.find? (fun p => p.participant_id == pid) = none) ∧
  (∀ info, db.store.participants.find? (fun p => p.participant_id == pid) = some info →
    (db.store.data_dictionary ≠ [] →
      (db.get_participant_overview pid).2 = .error closedConnErr) ∧
    (db.store.data_dictionary = [] →
      (db.get_participant_overview pid).2 = .ok (some ⟨pid, info, []⟩))) ∧
  (∀ ov, (db.get_participant_overview pid).2 = .ok (some ov) → ov.sensor_stats = [])

/-- C6 (amended): `get_participant_overview` on a fresh connection satisfies
`OverviewBehavior` — sentinel exactly for absent participants, a raise (not
an overview) for any present participant once the dictionary is nonempty,
and an empty `sensor_stats` in every overview it does return. -/
theorem c6_overview_behavior (db : DB) (pid : String) (h : db.conn = none) :
    OverviewBehavior db pid := by
  have hconn : db.connect = ({ db with conn := some ConnState.conn_open }, ConnState.conn_open) := by
    simp [DB.connect, h]
  have hga : db.store.get_available_sensors
      = db.store.data_dictionary.insertionSort
          (fun a b => strLe a.sensor_name b.sensor_name = true) := rfl
  cases hf : db.store.participants.find? (fun p => p.participant_id == pid) with
  | none =>
    refine ⟨⟨fun _ => hf, fun _ => by simp [DB.get_participant_overview, hconn, hf]⟩, ?_, ?_⟩
    · intro info hinfo
      rw [hf] at hinfo
      cases hinfo
    · intro ov ho
      simp [DB.get_participant_overview, hconn, hf] at ho
  | some info0 =>
    cases hs : db.store.get_available_sensors with
    | nil =>
      have hdict : db.store.data_dictionary = [] := by
        rw [hga] at hs
        exact (insertionSort_eq_nil_iff _ _).mp hs
      have hov : (db.get_participant_overview pid).2 = .ok (some ⟨pid, info0, []⟩) := by
        simp [DB.get_participant_overview, hconn, hf, hs]
      refine ⟨⟨?_, ?_⟩, ?_, ?_⟩
      · intro hnone
        rw [hov] at hnone
        simp at hnone
      · intro hcontr
        rw [hf] at hcontr
        cases hcontr
      · intro info hinfo
        rw [hf] at hinfo
        cases hinfo
        exact ⟨fun hne => absurd hdict hne, fun _ => hov⟩
      · intro ov ho
        rw [hov] at ho
        have h1 : (some (⟨pid, info0, []⟩ : Overview)) = some ov := Except.ok.inj ho
        have h2 : ov = ⟨pid, info0, []⟩ := (Option.some.inj h1).symm
        rw [h2]
    | cons e rest =>
      have hdict : db.store.data_dictionary ≠ [] := by
        intro hd
        rw [hga, hd] at hs
        cases hs
      have hov : (db.get_participant_overview pid).2 = .error closedConnErr := by
        simp [DB.get_participant_overview, hconn, hf, hs]
      refine ⟨⟨?_, ?_⟩, ?_, ?_⟩
      · intro hnone
        rw [hov] at hnone
        cases hnone
      · intro hcontr
        rw [hf] at hcontr
        cases hcontr
      · intro info hinfo
        rw [hf] at hinfo
        cases hinfo
        exact ⟨fun _ => hov, fun hd => absurd hd hdict⟩
      · intro ov ho
        rw [hov] at ho
        cases ho

/-- C6 witness: the amended behavior instantiated at the concrete demo store
and its present participant `"101"`. -/
theorem c6_overview_behavior_witness :
    (⟨demoStore, none⟩ : DB).conn = none ∧ OverviewBehavior ⟨demoStore, none⟩ "101" :=
  ⟨rfl, c6_overview_behavior ⟨demoStore, none⟩ "101" rfl⟩

/-- C7: every known sensor identifier, queried on the freshly created store
(all sensor tables present and empty), yields a summary with
`total_records = 0` and an empty `participant_stats`; a name with no table
in the store yields the `None` sentinel rather than an error. -/
theorem c7_summary_fresh_and_missing :
    (∀ name ∈ sensorNames,
      freshStore.get_sensor_data_summary name = some ⟨name, 0, []⟩) ∧
    (∀ (st : Store) (name : String), st.findTable name = none →
      st.get_sensor_data_summary name = none) := by
  constructor
  · decide
  · intro st name h
    simp [Store.get_sensor_data_summary, h]

/-- C7 witness: both branches at concrete inputs — `wrist_hr` on the fresh
store, and a store with no such table. -/
theorem c7_summary_witness :
    emptyStore.findTable "wrist_hr" = none ∧
    emptyStore.get_sensor_data_summary "wrist_hr" = none ∧
    "wrist_hr" ∈ sensorNames ∧
    freshStore.get_sensor_data_summary "wrist_hr" = some ⟨"wrist_hr", 0, []⟩ :=
  ⟨by decide, c7_summary_fresh_and_missing.2 emptyStore "wrist_hr" (by decide),
   by decide, c7_summary_fresh_and_missing.1 "wrist_hr" (by decide)⟩

/-- C8: running `extract_all_data` a second time over the same discovered
files and the same store appends every file's rows again: starting from an
empty store, after the second run every table's row count is exactly double
its count after the first run (there is no deduplication key). -/
theorem c8_rerun_doubles (meta : Option (List ParticipantRow)) (files : List FileInfo)
    (s : String) :
    (extract_all_data meta files (extract_all_data meta files emptyStore)).rowCount s
      = 2 * (extract_all_data meta files emptyStore).rowCount s := by
  have h0 : emptyStore.rowCount s = 0 := rfl
  rw [rowCount_extract_all_data, rowCount_extract_all_data, h0]
  omega

/-- C9: whenever `get_participants`, `get_available_sensors` or
`get_sensor_stats` returns (successfully), the cached `self.conn` is left
pointing at a closed connection (not reset to `None`), and from then on
every query method that touches the connection raises
`sqlite3.ProgrammingError` instead of returning data. -/
theorem c9_close_poisons_instance :
    (∀ (db db' : DB) (r : List ParticipantRow), db.get_participants = (db', .ok r) →
      db'.conn = some ConnState.conn_closed ∧ allQueriesFail db') ∧
    (∀ (db db' : DB) (r : List DictEntry), db.get_available_sensors = (db', .ok r) →
      db'.conn = some ConnState.conn_closed ∧ allQueriesFail db') ∧
    (∀ (db db' : DB) (s : String) (n : Nat), db.get_sensor_stats s = (db', .ok n) →
      db'.conn = some ConnState.conn_closed ∧ allQueriesFail db') := by
  refine ⟨?_, ?_, ?_⟩
  · intro db db' r heq
    cases hc : db.conn with
    | none =>
      simp [DB.get_participants, DB.connect, hc] at heq
      obtain ⟨h1, -⟩ := heq
      rw [← h1]
      exact ⟨rfl, conn_closed_all_fail _ rfl⟩
    | some c =>
      cases c with
      | conn_open =>
        simp [DB.get_participants, DB.connect, hc] at heq
        obtain ⟨h1, -⟩ := heq
        rw [← h1]
        exact ⟨rfl, conn_closed_all_fail _ rfl⟩
      | conn_closed =>
        simp [DB.get_participants, DB.connect, hc] at heq
  · intro db db' r heq
    cases hc : db.conn with
    | none =>
      simp [DB.get_available_sensors, DB.connect, hc] at heq
      obtain ⟨h1, -⟩ := heq
      rw [← h1]
      exact ⟨rfl, conn_closed_all_fail _ rfl⟩
    | some c =>
      cases c with
      | conn_open =>
        simp [DB.get_available_sensors, DB.connect, hc] at heq
        obtain ⟨h1, -⟩ := heq
        rw [← h1]
        exact ⟨rfl, conn_closed_all_fail _ rfl⟩
      | conn_closed =>
        simp [DB.get_available_sensors, DB.connect, hc] at heq
  · intro db db' s n heq
    cases hc : db.conn with
    | none =>
      cases hl : Store.get_sensor_stats db.store s with
      | error msg => simp [DB.get_sensor_stats, DB.connect, hc, hl] at heq
      | ok m =>
        simp [DB.get_sensor_stats, DB.connect, hc, hl] at heq
        obtain ⟨h1, -⟩ := heq
        rw [← h1]
        exact ⟨rfl, conn_closed_all_fail _ rfl⟩
    | some c =>
      cases c with
      | conn_open =>
        cases hl : Store.get_sensor_stats db.store s with
        | error msg => simp [DB.get_sensor_stats, DB.connect, hc, hl] at heq
        | ok m =>
          simp [DB.get_sensor_stats, DB.connect, hc, hl] at heq
          obtain ⟨h1, -⟩ := heq
          rw [← h1]
          exact ⟨rfl, conn_closed_all_fail _ rfl⟩
      | conn_closed =>
        simp [DB.get_sensor_stats, DB.connect, hc] at heq

/-- C9 witness: a successful `get_participants` on a fresh instance leaves
the cached connection closed and every subsequent query failing. -/
theorem c9_close_poisons_witness :
    DB.get_participants ⟨demoStore, none⟩ =
      (⟨demoStore, some ConnState.conn_closed⟩, .ok [⟨"101", some 1, some 2, some 3⟩]) ∧
    ((⟨demoStore, some ConnState.conn_closed⟩ : DB).conn = some ConnState.conn_closed ∧
      allQueriesFail ⟨demoStore, some ConnState.conn_closed⟩) :=
  ⟨by decide,
   c9_close_poisons_instance.1 ⟨demoStore, none⟩ ⟨demoStore, some ConnState.conn_closed⟩
     [⟨"101", some 1, some 2, some 3⟩] (by decide)⟩

/-- C10: `get_sensor_data` treats falsy filter values as absent — an empty
`participant_id` and a `session_id` of `0` produce the same result as
omitting the argument — although the discovery step accepts a session
directory named `"0"` (`str.isdigit`) and an `INTEGER` `session_id` column
stores the digit string `"0"` as the integer `0`. -/
theorem c10_falsy_filters_dropped :
    (∀ (st : Store) (name : String) (sid : Option Int) (limit : Int),
      st.get_sensor_data name (some "") sid limit = st.get_sensor_data name none sid limit) ∧
    (∀ (st : Store) (name : String) (pid : Option String) (limit : Int),
      st.get_sensor_data name pid (some 0) limit = st.get_sensor_data name pid none limit) ∧
    pyIsDigit "0" = true ∧ sqlSessionId "0" = 0 := by
  refine ⟨?_, ?_, by decide, by decide⟩
  · intro st name sid limit
    have h1 : pyTruthyStr (some "") = false := by decide
    have hm : rowMatches (some "") sid = rowMatches none sid := by
      funext r
      simp [rowMatches, h1, pyTruthyStr]
    simp [Store.get_sensor_data, hm]
  · intro st name pid limit
    have h1 : pyTruthyInt (some 0) = false := by decide
    have hm : rowMatches pid (some 0) = rowMatches pid none := by
      funext r
      simp [rowMatches, h1, pyTruthyInt]
    simp [Store.get_sensor_data, hm]
